import Mathlib

/-!
Verification of the pubmed2zhihu six-stage pipeline core.

This file gives a shallow embedding, in Lean, of the orchestrator
(`src/core/processor.py`), the stage contracts
(`src/core/steps/step1..step6`), and the project store
(`src/utils/file_manager.py`), and proves properties of the persisted
status record, error handling, content-source selection, ordering and
file effects.

Modelling conventions:
* Python dict results `{'success': bool, 'data'|'error': ...}` are the
  inductive `StepResult`.
* A Python call that may raise is modelled by an explicit outcome
  (`CallOutcome.raises msg` for an uncaught exception escaping a call).
* The file system is a function from paths to `Option String`
  (`none` = the file is absent or unreadable).
* Timestamps (`last_updated`, `created_time`, `fetch_time`, ...) are not
  modelled: no claim refers to them.
* Network collaborators (Entrez, requests, playwright) are parameters of
  the stage functions, per the spec's collaborator interfaces.
-/

namespace Pubmed

/-- A stage's structured result dict: `{'success': True, ...}` or
`{'success': False, 'error': msg}`. -/
inductive StepResult where
  | ok (data : String)
  | err (msg : String)
deriving DecidableEq, Repr

/-- The truthiness of `result.get('success')`. -/
def StepResult.success : StepResult → Bool
  | .ok _ => true
  | .err _ => false

/-- The `error` field of a result dict (absent on success). -/
def StepResult.error : StepResult → Option String
  | .ok _ => none
  | .err m => some m

/-- How a Python call returns to its caller: either with a value or by
raising an exception that the callee did not catch. -/
inductive CallOutcome where
  | returns (r : StepResult)
  | raises (msg : String)
deriving DecidableEq, Repr

/-- A file path inside the project directory, split into the directory
part (e.g. `"step2_details/pdfs"`; `""` is the project root) and the
file name. -/
structure FPath where
  dir : String
  file : String
deriving DecidableEq, Repr

/-- One file write performed by the code (`save_json`, `save_text_file`,
`open(..., 'w')`, screenshots). -/
structure FileWrite where
  path : FPath
  content : String
deriving DecidableEq, Repr

/-- The behaviour of one `_execute_stepN` handler on the current world:
its outcome towards the orchestrator and the file writes it performed.
The handlers wrap the stage classes, whose bodies are embedded
separately below. -/
structure HandlerBehavior where
  outcome : CallOutcome
  writes : List FileWrite
deriving Repr

/-- The mutable part of `project_summary.json` that the orchestrator
maintains (`status`, `current_step`); see `PubMedProcessor._update_status`. -/
structure ProjectSummary where
  status : String
  current_step : Int
deriving DecidableEq, Repr

/-- `PubMedProcessor._update_status`: overwrite `current_step` and
`status` in the summary and persist it. -/
def updateStatus (s : ProjectSummary) (step : Int) (status : String) : ProjectSummary :=
  { s with current_step := step, status := status }

/-- The summary written by `create_project`:
`{'status': 'created', 'current_step': 0}`. -/
def initialSummary : ProjectSummary := { status := "created", current_step := 0 }

/-- Serialized form of the status record as persisted to
`project_summary.json` (JSON serialization abstracted to the two fields
the orchestrator mutates). -/
def statusLine (s : ProjectSummary) : String :=
  s.status ++ "|" ++ toString s.current_step

/-- The write of the status record performed by `_update_status` via
`update_project_summary` (file `project_summary.json` at the project
root). -/
def summaryWrite (s : ProjectSummary) : FileWrite :=
  ⟨⟨"", "project_summary.json"⟩, statusLine s⟩

/-- Result of one `PubMedProcessor.execute_step` call: what the call
does towards its caller, the status record afterwards, and the file
writes performed during the call. -/
structure ExecResult where
  outcome : CallOutcome
  summary : ProjectSummary
  writes : List FileWrite
deriving Repr

/-- `PubMedProcessor.execute_step`: look the handler up in
`step_handlers` (keys 1..6); an unknown step number yields
`{'success': False, 'error': '无效的步骤号: N'}` without calling any
handler; otherwise run the handler (its uncaught exceptions propagate —
there is no try/except in `execute_step`), and only on a successful
result call `_update_status(path, n, 'stepN_completed')`. -/
def executeStep (handler : Int → HandlerBehavior) (s : ProjectSummary)
    (stepNum : Int) : ExecResult :=
  if 1 ≤ stepNum ∧ stepNum ≤ 6 then
    let h := handler stepNum
    match h.outcome with
    | .raises m => ⟨.raises m, s, h.writes⟩
    | .returns r =>
      if r.success then
        let s' := updateStatus s stepNum ("step" ++ toString stepNum ++ "_completed")
        ⟨.returns r, s', h.writes ++ [summaryWrite s']⟩
      else ⟨.returns r, s, h.writes⟩
  else
    ⟨.returns (.err ("无效的步骤号: " ++ toString stepNum)), s, []⟩

/-- `PubMedProcessor.execute_steps_1_to_3`: create the project, then run
handlers 1, 2, 3 sequentially, stopping at the first structured failure
(returning that result with the status record untouched), updating the
status record after each success, and catching any exception that
escapes a handler: the except-branch records
`_update_status(path, -1, 'error: ' + msg)` and returns
`{'success': False, 'error': msg}`. -/
def executeSteps1to3 (handler : Int → HandlerBehavior) :
    StepResult × ProjectSummary :=
  let s0 := initialSummary
  match (handler 1).outcome with
  | .raises m => (.err m, updateStatus s0 (-1) ("error: " ++ m))
  | .returns r1 =>
    if r1.success then
      let s1 := updateStatus s0 1 "step1_completed"
      match (handler 2).outcome with
      | .raises m => (.err m, updateStatus s1 (-1) ("error: " ++ m))
      | .returns r2 =>
        if r2.success then
          let s2 := updateStatus s1 2 "step2_completed"
          match (handler 3).outcome with
          | .raises m => (.err m, updateStatus s2 (-1) ("error: " ++ m))
          | .returns r3 =>
            if r3.success then
              (.ok "步骤1-3执行完成", updateStatus s2 3 "step3_completed")
            else (r3, s2)
        else (r2, s1)
    else (r1, s0)

/-- `PubMedProcessor.execute_steps_4_to_6`: the same scheme on an
existing project's summary for handlers 4, 5, 6. -/
def executeSteps4to6 (handler : Int → HandlerBehavior) (s : ProjectSummary) :
    StepResult × ProjectSummary :=
  match (handler 4).outcome with
  | .raises m => (.err m, updateStatus s (-1) ("error: " ++ m))
  | .returns r4 =>
    if r4.success then
      let s4 := updateStatus s 4 "step4_completed"
      match (handler 5).outcome with
      | .raises m => (.err m, updateStatus s4 (-1) ("error: " ++ m))
      | .returns r5 =>
        if r5.success then
          let s5 := updateStatus s4 5 "step5_completed"
          match (handler 6).outcome with
          | .raises m => (.err m, updateStatus s5 (-1) ("error: " ++ m))
          | .returns r6 =>
            if r6.success then
              (.ok "步骤4-6执行完成", updateStatus s5 6 "step6_completed")
            else (r6, s5)
        else (r5, s4)
    else (r4, s)

/-- `PubMedProcessor.execute_all_steps`: run group 1-3; if it fails the
second group is never attempted; otherwise run group 4-6 on the
resulting summary. -/
def executeAllSteps (handler : Int → HandlerBehavior) :
    StepResult × ProjectSummary :=
  let r := executeSteps1to3 handler
  if r.1.success then executeSteps4to6 handler r.2 else r

end Pubmed

namespace Pubmed

/-! Stage 1 (`PubMedSearcher.search`): the body runs the two collaborator
calls inside a try/except that converts any exception into
`{'success': False, 'error': str(e)}`. The collaborator calls
(`_fetch_pmids`, `_fetch_basic_info`) are parameters; an `Except.error`
value models the final retry attempt's exception propagating. -/

/-- A paper record as materialized in stage artifacts: the stage-1 core
fields plus the optional enrichment fields that stage 2 adds
(`pmcid`, `has_free_fulltext`, `authors_short`, `doi`, `pdf_path`,
`fulltext_path`, `fulltext_status`, `fulltext_word_count`). A `none`
models an absent dict key. -/
structure Paper where
  pmid : String
  title : String
  abstract : Option String
  authors : List String
  journal : String
  pub_date : String
  pmcid : Option String := none
  has_free_fulltext : Option Bool := none
  authors_short : Option String := none
  doi : Option String := none
  pdf_path : Option String := none
  fulltext_path : Option String := none
  fulltext_status : Option String := none
  fulltext_word_count : Option Nat := none
deriving DecidableEq, Repr

/-- The result dict of `PubMedSearcher.search`. -/
structure SearchResult where
  success : Bool
  error : Option String
  query : String
  total_found : Nat
  returned_count : Nat
  papers : List Paper
deriving DecidableEq, Repr

/-- `PubMedSearcher.search`: empty PMID list is a success with
`total_found = 0`; an exception from either collaborator call is caught
by the stage's own try/except and converted to a failure result. -/
def PubMedSearcher.search (fetchPmids : Except String (List String))
    (fetchBasicInfo : List String → Except String (List Paper))
    (query : String) : SearchResult :=
  match fetchPmids with
  | .error m => ⟨false, some m, query, 0, 0, []⟩
  | .ok pmids =>
    if pmids.isEmpty then ⟨true, none, query, 0, 0, []⟩
    else
      match fetchBasicInfo pmids with
      | .error m => ⟨false, some m, query, 0, 0, []⟩
      | .ok papers => ⟨true, none, query, pmids.length, papers.length, papers⟩

end Pubmed

namespace Pubmed

/-! The project file system.  A path is a string (relative to the
repository root / project directory as in the code's `os.path.join`
results); `none` models an absent or unreadable file. -/

/-- File system contents by full path string. -/
def FSys := String → Option String

/-- Overwrite one file (`open(path, 'w')` followed by a full write). -/
def setFile (fs : FSys) (p c : String) : FSys :=
  fun q => if q = p then some c else fs q

/-- `os.path.join` on POSIX-style relative components. -/
def pathJoin (parts : List String) : String :=
  String.intercalate "/" parts

/-- Accumulator pass over the characters for `pySplit`: `cur` holds the
reversed characters of the word being read. -/
def pySplitAux : List Char → List Char → List String
  | [], cur => if cur.isEmpty then [] else [String.mk cur.reverse]
  | c :: cs, cur =>
    if c.isWhitespace then
      if cur.isEmpty then pySplitAux cs [] else String.mk cur.reverse :: pySplitAux cs []
    else pySplitAux cs (c :: cur)

/-- Python's `str.split()` with no separator: split on whitespace runs
and drop empty pieces. -/
def pySplit (s : String) : List String :=
  pySplitAux s.data []

/-- Python truthiness of an optional string value
(`None` and `''` are falsy). -/
def truthyStr : Option String → Bool
  | none => false
  | some s => s ≠ ""

/-! `FileManager.save_json`: the code opens the destination path itself
with mode `'w'` (truncating it) and then serializes into it; there is no
temporary file and no rename.  `saveJsonStates` lists the observable
file-system states during one call: before the call, after the
truncating open, and after the write completes.  `saveJsonTargets` lists
the path written by each of the two mutating steps. -/

/-- Observable file-system states during one `save_json` call. -/
def saveJsonStates (fs : FSys) (filePath data : String) : List FSys :=
  [fs, setFile fs filePath "", setFile fs filePath data]

/-- The destination of each mutating file operation that one `save_json`
call performs (truncating open, then the write): always the destination
path itself, never a temporary path. -/
def saveJsonTargets (filePath : String) : List String :=
  [filePath, filePath]

/-! Stage 4 / stage 5 content-source selection
(`PromptGenerator._get_paper_content`,
`MergedPromptGenerator._get_paper_content`). -/

/-- The result of stage 4's `_get_paper_content`. -/
structure ContentData where
  source : String
  text : String
  note : String
deriving DecidableEq, Repr

/-- The `status_notes` table of stage 4 (with the `.get` default, which
coincides with the entry for key `''`). -/
def statusNotes (st : String) : String :=
  if st = "no_pmcid" then "[无法获取PDF：非开放获取论文，以下为摘要]"
  else if st = "download_failed" then "[PDF下载失败，以下为摘要]"
  else if st = "extract_failed" then "[PDF文本提取失败，以下为摘要]"
  else "[以下为摘要]"

/-- `os.path.join(project_path, 'step2_details', fulltext_path)`. -/
def fulltextFullPath (pp fp : String) : String :=
  pathJoin [pp, "step2_details", fp]

/-- `PromptGenerator._get_paper_content`: try the extracted full text
when `fulltext_status == 'success'` and `fulltext_path` is truthy and
the file exists and is readable (`os.path.exists` + try/read, both
modelled by the `FSys` lookup); on any other combination fall back to
the abstract with the status-derived note. -/
def PromptGenerator.getPaperContent (fs : FSys) (pp : String) (paper : Paper) :
    ContentData :=
  let st := paper.fulltext_status.getD ""
  let fallback : ContentData :=
    ⟨"abstract", paper.abstract.getD "摘要不可用", statusNotes st⟩
  if st = "success" then
    match paper.fulltext_path with
    | some fp =>
      if fp = "" then fallback
      else
        match fs (fulltextFullPath pp fp) with
        | some fulltext =>
          ⟨"fulltext", fulltext,
            "[全文内容 - 约" ++
              toString (paper.fulltext_word_count.getD (pySplit fulltext).length) ++
              "词]"⟩
        | none => fallback
    | none => fallback
  else fallback

/-- The result of stage 5's `_get_paper_content`. -/
structure ContentData5 where
  source : String
  text : String
  word_count : Nat
  truncated : Bool
deriving DecidableEq, Repr

/-- `MergedPromptGenerator._get_paper_content`: same selection rule as
stage 4's, re-derived independently, plus per-paper truncation to
`max_words_per_paper` words with a `truncated` flag. -/
def MergedPromptGenerator.getPaperContent (fs : FSys) (pp : String) (maxW : Nat)
    (paper : Paper) : ContentData5 :=
  let st := paper.fulltext_status.getD ""
  let abstract := paper.abstract.getD "摘要不可用"
  let fallback : ContentData5 :=
    ⟨"abstract", abstract, (pySplit abstract).length, false⟩
  if st = "success" then
    match paper.fulltext_path with
    | some fp =>
      if fp = "" then fallback
      else
        match fs (fulltextFullPath pp fp) with
        | some fulltext =>
          let words := pySplit fulltext
          if words.length > maxW then
            ⟨"fulltext", String.intercalate " " (words.take maxW), words.length, true⟩
          else ⟨"fulltext", fulltext, words.length, false⟩
        | none => fallback
    | none => fallback
  else fallback

/-- The condition under which both selection functions use the full
text: status `success`, a truthy `fulltext_path`, and a readable file.
Stated separately so the two stages' independent implementations can be
proved to agree with it and with each other. -/
def fulltextSelectable (fs : FSys) (pp : String) (paper : Paper) : Bool :=
  (paper.fulltext_status.getD "" = "success") &&
  truthyStr paper.fulltext_path &&
  (match paper.fulltext_path with
   | some fp => (fs (fulltextFullPath pp fp)).isSome
   | none => false)

/-- The `source_label` computed by
`MergedPromptGenerator._generate_paper_section` from the content data
it embeds. -/
def sourceLabel (maxW : Nat) (c : ContentData5) : String :=
  if c.source = "fulltext" then
    if c.truncated then "[全文-已截取前" ++ toString maxW ++ "词]" else "[全文]"
  else "[摘要]"

/-- A figure record inside the stage-3 artifact. -/
structure Figure where
  figure_id : String
  caption : String
  local_path : Option String
  original_url : String
deriving DecidableEq, Repr

/-- `MergedPromptGenerator._format_figure_info` (the `figure_id` default
for a missing key is not modelled: stage 3 always writes the key). -/
def MergedPromptGenerator.formatFigureInfo (figures : List Figure) : String :=
  if figures.isEmpty then "无可获取的图片"
  else
    String.intercalate "\n" (figures.map (fun fig =>
      let preview :=
        if fig.caption.length > 200 then fig.caption.take 200 ++ "..." else fig.caption
      "- " ++ fig.figure_id ++ ": " ++ preview))

/-- The `author_str` of `_generate_paper_section` (the non-list branch
is not modelled: `authors` is a list in every artifact). -/
def authorStr5 (authors : List String) : String :=
  let firstAuthor := authors.headD "未知"
  if authors.length > 1 then firstAuthor ++ " 等" else firstAuthor

/-- The part of stage 5's per-paper section template before the content
text. -/
def sectionHead (maxW : Nat) (paper : Paper) (c : ContentData5) (index : Nat) :
    String :=
  "\n### 论文 " ++ toString index ++ " (PMID: " ++ paper.pmid ++ ")\n" ++
  "- **标题**: " ++ paper.title ++ "\n" ++
  "- **作者**: " ++ authorStr5 paper.authors ++ "\n" ++
  "- **期刊**: " ++ paper.journal ++ " (" ++ paper.pub_date ++ ")\n" ++
  "- **DOI**: " ++ (if paper.doi.getD "" ≠ "" then paper.doi.getD "" else "无") ++ "\n" ++
  "- **内容来源**: " ++ sourceLabel maxW c ++ " (约" ++ toString c.word_count ++ "词)\n\n" ++
  "**论文内容**:\n"

/-- The part of stage 5's per-paper section template after the content
text. -/
def sectionTail (figures : List Figure) : String :=
  "\n\n**图片信息**:\n" ++ MergedPromptGenerator.formatFigureInfo figures ++ "\n"

/-- `MergedPromptGenerator._generate_paper_section`: one f-string,
decomposed here at the exact points where the selected content text is
interpolated. -/
def MergedPromptGenerator.generatePaperSection (fs : FSys) (pp : String)
    (maxW : Nat) (paper : Paper) (figures : List Figure) (index : Nat) : String :=
  let c := MergedPromptGenerator.getPaperContent fs pp maxW paper
  sectionHead maxW paper c index ++ c.text ++ sectionTail figures

/-! Stage 2 (`PaperDetailsFetcher.fetch_details`). -/

/-- The dict returned by `PaperDetailsFetcher._download_and_extract_pdf`
for one PMC id. -/
structure PdfResult where
  pdf_path : Option String
  fulltext_path : Option String
  status : String
  word_count : Nat
deriving DecidableEq, Repr

/-- The `authors_short` computation of `fetch_details`. -/
def authorsShort (authors : List String) : String :=
  if authors.length > 3 then authors.headD "" ++ " et al."
  else if ¬ authors.isEmpty then String.intercalate ", " authors
  else "Unknown"

/-- The per-paper enrichment performed by the loop body of
`fetch_details`: copy the stage-1 record and add `pmcid`,
`has_free_fulltext`, `authors_short`, `doi` and (when PDF download is
enabled) the PDF/full-text fields.  `linkInfo` models the result of
`_fetch_pmc_links`, `doiOf` of `_fetch_doi`, `pdfResult` of
`_download_and_extract_pdf`. -/
def enrichPaper (linkInfo doiOf : String → Option String) (pdfEnabled : Bool)
    (pdfResult : String → PdfResult) (paper : Paper) : Paper :=
  let pmcid := linkInfo paper.pmid
  let base := { paper with
    pmcid := pmcid,
    has_free_fulltext := some pmcid.isSome,
    authors_short := some (authorsShort paper.authors),
    doi := doiOf paper.pmid }
  if pdfEnabled then
    match pmcid with
    | some c =>
      let pr := pdfResult c
      { base with
        pdf_path := pr.pdf_path,
        fulltext_path := pr.fulltext_path,
        fulltext_status := some pr.status,
        fulltext_word_count := some pr.word_count }
    | none =>
      { base with
        pdf_path := none,
        fulltext_path := none,
        fulltext_status := some "no_pmcid",
        fulltext_word_count := some 0 }
  else base

/-- The result dict of `fetch_details` (the `stats` block and timestamps
are omitted: no claim refers to them). -/
structure DetailsResult where
  success : Bool
  error : Option String
  papers : List Paper
deriving DecidableEq, Repr

/-- `PaperDetailsFetcher.fetch_details`: a missing stage-1 artifact
raises `FileNotFoundError('未找到搜索结果文件: ...')`, caught by the
stage's own try/except into a failure result; an empty paper list is a
success; otherwise every paper is enriched in input order. -/
def PaperDetailsFetcher.fetchDetails (searchArtifact : Option SearchResult)
    (pp : String) (linkInfo doiOf : String → Option String) (pdfEnabled : Bool)
    (pdfResult : String → PdfResult) : DetailsResult :=
  match searchArtifact with
  | none =>
    ⟨false, some ("未找到搜索结果文件: " ++
      pathJoin [pp, "step1_search", "search_results.json"]), []⟩
  | some art =>
    if art.papers.isEmpty then ⟨true, none, []⟩
    else ⟨true, none, art.papers.map (enrichPaper linkInfo doiOf pdfEnabled pdfResult)⟩

/-! Stage 3 (`PMCFigureFetcher`). -/

/-- One paper's entry in the stage-3 artifact. -/
structure PaperFigures where
  pmid : String
  pmcid : Option String
  figures : List Figure
  figure_count : Nat
  note : Option String
deriving DecidableEq, Repr

/-- `PMCFigureFetcher._fetch_single_paper_figures_async` for one paper:
no PMC id means an empty figure list with a note; otherwise browser
screenshots (when the browser is available) with a URL-only fallback.
`browserFigures`/`urlInfo` model the two collaborator calls by PMC id. -/
def PMCFigureFetcher.fetchSinglePaperFigures
    (browserFigures urlInfo : String → List Figure) (browserAvailable : Bool)
    (paper : Paper) : PaperFigures :=
  match paper.pmcid with
  | none => ⟨paper.pmid, none, [], 0, some "原图不可获取（非开放获取）"⟩
  | some pmcid =>
    let figures := if browserAvailable then browserFigures pmcid else []
    if figures.isEmpty then
      let ui := urlInfo pmcid
      if ¬ ui.isEmpty then
        ⟨paper.pmid, some pmcid, ui, ui.length, some "图片URL已获取（可在浏览器中查看）"⟩
      else ⟨paper.pmid, some pmcid, [], 0, some "无法获取图片信息"⟩
    else ⟨paper.pmid, some pmcid, figures, figures.length, none⟩

/-- The result dict of `fetch_figures`. -/
structure FiguresResult where
  success : Bool
  error : Option String
  papers : List PaperFigures
deriving DecidableEq, Repr

/-- `PMCFigureFetcher.fetch_figures`: a missing stage-2 artifact raises
`FileNotFoundError('未找到论文详情文件: ...')`, caught into a failure
result; otherwise the per-paper results in input order (the concurrent
collection is modelled separately by `gatherInOrder`). -/
def PMCFigureFetcher.fetchFigures (detailsArtifact : Option DetailsResult)
    (pp : String) (browserFigures urlInfo : String → List Figure)
    (browserAvailable : Bool) : FiguresResult :=
  match detailsArtifact with
  | none =>
    ⟨false, some ("未找到论文详情文件: " ++
      pathJoin [pp, "step2_details", "papers_details.json"]), []⟩
  | some art =>
    ⟨true, none, art.papers.map
      (PMCFigureFetcher.fetchSinglePaperFigures browserFigures urlInfo browserAvailable)⟩

/-! Stage 3's concurrent fan-out (`asyncio.gather` over one task per
paper).  A completion schedule is the order in which the per-paper tasks
finish; each finished task deposits its result in the slot of its input
index, and `asyncio.gather` hands the slots back in input order. -/

/-- Execute the per-paper tasks in completion-schedule order: each
completion of task `i` stores `f papers[i]` in slot `i`. -/
def completeTasks (f : Paper → PaperFigures) (papers : List Paper)
    (sched : List Nat) : Nat → Option PaperFigures :=
  sched.foldl
    (fun acc i => fun j => if j = i then (papers.get? i).map f else acc j)
    (fun _ => none)

/-- `asyncio.gather`'s result: the slots read back in input order. -/
def gatherInOrder (f : Paper → PaperFigures) (papers : List Paper)
    (sched : List Nat) : List (Option PaperFigures) :=
  (List.range papers.length).map (completeTasks f papers sched)

/-! Stage 4 (`PromptGenerator.generate_prompts`) and stage 5
(`MergedPromptGenerator.generate_merged_prompt`) top level. -/

/-- The `figures_map.get(pmid, [])` lookup built from the stage-3
artifact (empty when the artifact file is absent, which is tolerated). -/
def figuresMapLookup (figuresArtifact : Option FiguresResult) (pmid : String) :
    List Figure :=
  match figuresArtifact with
  | none => []
  | some art =>
    match art.papers.find? (fun q => q.pmid == pmid) with
    | some q => q.figures
    | none => []

/-- One entry of the `prompts` list in the stage-4 artifact. -/
structure PromptInfo where
  pmid : String
  title : String
  prompt : String
  has_figures : Bool
  figure_count : Nat
deriving DecidableEq, Repr

/-- The result dict of `generate_prompts`. -/
structure PromptsResult where
  success : Bool
  error : Option String
  prompts : List PromptInfo
deriving DecidableEq, Repr

/-- `PromptGenerator.generate_prompts`: a missing stage-2 artifact makes
`load_json` raise `FileNotFoundError('文件不存在: ...')`, caught by the
stage's try/except into a failure result; otherwise one prompt per paper
in input order.  `mkPrompt` is `_generate_single_prompt` (template
filling; its output does not influence order or success). -/
def PromptGenerator.generatePrompts (detailsArtifact : Option DetailsResult)
    (figuresArtifact : Option FiguresResult) (pp : String)
    (mkPrompt : Paper → List Figure → String) : PromptsResult :=
  match detailsArtifact with
  | none =>
    ⟨false, some ("文件不存在: " ++
      pathJoin [pp, "step2_details", "papers_details.json"]), []⟩
  | some art =>
    ⟨true, none, art.papers.map (fun p =>
      let figs := figuresMapLookup figuresArtifact p.pmid
      ⟨p.pmid, p.title, mkPrompt p figs, decide (0 < figs.length), figs.length⟩)⟩

/-- One entry of the `papers_list.json` artifact written by stage 5. -/
structure PaperListEntry where
  pmid : String
  title : String
  authors : List String
  journal : String
  pub_date : String
  doi : String
  has_fulltext : Bool
  figure_count : Nat
deriving DecidableEq, Repr

/-- The `papers_list` built by the stage-5 loop, in input order. -/
def MergedPromptGenerator.papersListEntries (fs : FSys) (pp : String)
    (maxW : Nat) (figuresArtifact : Option FiguresResult)
    (papers : List Paper) : List PaperListEntry :=
  papers.map (fun p =>
    let figs := figuresMapLookup figuresArtifact p.pmid
    let c := MergedPromptGenerator.getPaperContent fs pp maxW p
    ⟨p.pmid, p.title, p.authors, p.journal, p.pub_date, p.doi.getD "",
      c.source == "fulltext", figs.length⟩)

/-- The result dict of `generate_merged_prompt` (file-path fields and
timestamps omitted). -/
structure Step5Result where
  success : Bool
  error : Option String
  paper_count : Nat
  fulltext_count : Nat
  abstract_count : Nat
deriving DecidableEq, Repr

/-- `MergedPromptGenerator.generate_merged_prompt`: missing stage-1 or
stage-2 artifacts make `load_json` raise `FileNotFoundError`, caught
into a failure result; the stage-3 artifact is optional; otherwise the
stage always succeeds, counting full-text vs. abstract papers by the
selection rule (truncation is never an error). -/
def MergedPromptGenerator.generateMergedPrompt
    (searchArtifact : Option SearchResult) (detailsArtifact : Option DetailsResult)
    (figuresArtifact : Option FiguresResult) (fs : FSys) (pp : String)
    (maxW : Nat) : Step5Result :=
  match searchArtifact with
  | none =>
    ⟨false, some ("文件不存在: " ++
      pathJoin [pp, "step1_search", "search_results.json"]), 0, 0, 0⟩
  | some _ =>
    match detailsArtifact with
    | none =>
      ⟨false, some ("文件不存在: " ++
        pathJoin [pp, "step2_details", "papers_details.json"]), 0, 0, 0⟩
    | some dArt =>
      let papers := dArt.papers
      let fc := (papers.filter (fun p =>
        (MergedPromptGenerator.getPaperContent fs pp maxW p).source == "fulltext")).length
      ⟨true, none, papers.length, fc, papers.length - fc⟩

/-! Stage 6 (`ReportGenerator.generate_report` and
`_generate_papers_list_html`): every input is optional (`_load_all_data`
checks each file's existence); the per-paper work — one rendered detail
page appended to `generated_files`, and one item of the overview's paper
list — is a `for i, paper in enumerate(papers, 1)` loop over the stage-2
artifact's papers, in input order.  `slugOf` models `_generate_slug`
(a pure function of the title); the rendered HTML bodies do not
influence order or success and are not modelled. -/

/-- The papers stage 6 works on: the stage-2 artifact's list when that
artifact exists, `[]` otherwise (`_load_all_data` + `data.get('papers',
[])`). -/
def ReportGenerator.reportPapers (detailsArtifact : Option DetailsResult) :
    List Paper :=
  match detailsArtifact with
  | none => []
  | some art => art.papers

/-- The detail-page file name `f'{pmid}_{slug}.html'` built in
`generate_report`'s per-paper loop. -/
def ReportGenerator.detailFileName (slugOf : String → String) (p : Paper) :
    String :=
  p.pmid ++ "_" ++ slugOf p.title ++ ".html"

/-- The result dict of `generate_report` (`overview_file` and timestamps
omitted): always a success; `detail_files` lists the rendered pages in
paper order when an LLM response is present, and is empty otherwise. -/
structure ReportResult where
  success : Bool
  error : Option String
  detail_files : List String
  paper_count : Nat
  has_llm_response : Bool
deriving DecidableEq, Repr

/-- `ReportGenerator.generate_report`: the `generated_files` loop runs
once per paper in input order, only when `llm_response` is present. -/
def ReportGenerator.generateReport (detailsArtifact : Option DetailsResult)
    (hasLlm : Bool) (slugOf : String → String) : ReportResult :=
  let papers := ReportGenerator.reportPapers detailsArtifact
  let generatedFiles :=
    if hasLlm then papers.map (ReportGenerator.detailFileName slugOf) else []
  ⟨true, none, generatedFiles, papers.length, hasLlm⟩

/-- `f.split('_')[0]`: the characters of a detail file name before its
first underscore (the PMID, for PMIDs without underscores). -/
def pmidOfFile (f : String) : String :=
  String.mk (f.data.takeWhile (fun c => c != '_'))

/-- `_generate_papers_list_html`'s `file_map`: a dict
`{f.split('_')[0]: f}` built first to last (a later assignment to the
same key wins), read with `.get(pmid, '')`. -/
def fileMapLookup (detailFiles : List String) (pmid : String) : String :=
  detailFiles.foldl (fun acc f => if pmidOfFile f = pmid then f else acc) ""

/-- One item of the overview's paper list (the fields that determine it
besides the externally supplied analysis text). -/
structure ReportListItem where
  pmid : String
  title : String
  detail_file : String
deriving DecidableEq, Repr

/-- `_generate_papers_list_html`'s per-paper loop: one item per paper in
input order, no re-sorting; the surrounding HTML is a pure function of
these fields. -/
def ReportGenerator.papersListItems (detailFiles : List String)
    (papers : List Paper) : List ReportListItem :=
  papers.map (fun p => ⟨p.pmid, p.title, fileMapLookup detailFiles p.pmid⟩)

end Pubmed

namespace Pubmed

/-! File effects per stage (for the frame property).  Each write target
below is read off the corresponding `os.path.join` in the code; the
dynamic parts (PMC ids, PMIDs, slugs, contents) are parameters. -/

/-- The directories (relative to the project root) that stage `n`'s
execution writes into, per the code's `os.path.join` targets:
stage 1 `step1_search`, stage 2 `step2_details` and its `pdfs`
subdirectory, stage 3 `step3_figures` and its `images` subdirectory,
stage 4 `step4_prompts`, stage 5 `step5_overview`, stage 6
`step6_report` and the rendered `FinalOutput` pages. -/
def stageDirs (n : Nat) : List String :=
  if n = 1 then ["step1_search"]
  else if n = 2 then ["step2_details", "step2_details/pdfs"]
  else if n = 3 then ["step3_figures", "step3_figures/images"]
  else if n = 4 then ["step4_prompts"]
  else if n = 5 then ["step5_overview"]
  else if n = 6 then ["step6_report", "FinalOutput"]
  else []

/-- The stage that owns a directory (0 for none), the inverse of
`stageDirs`. -/
def dirStage (d : String) : Nat :=
  if d = "step1_search" then 1
  else if d = "step2_details" ∨ d = "step2_details/pdfs" then 2
  else if d = "step3_figures" ∨ d = "step3_figures/images" then 3
  else if d = "step4_prompts" then 4
  else if d = "step5_overview" then 5
  else if d = "step6_report" ∨ d = "FinalOutput" then 6
  else 0

/-- The dynamic data of one stage execution that determines its write
targets: artifact payloads, the PMC ids whose PDFs/texts stage 2 stores,
the screenshots stage 3 takes (pmcid, figure id, bytes), the prompts
stage 4 stores per PMID, stage 5's three files, and stage 6's rendered
pages (pmid, slug, html). -/
structure StageDyn where
  artifact : String
  pmcids : List String
  pdfContent : String → String
  txtContent : String → String
  shots : List (String × String × String)
  prompts : List (String × String)
  mergedPrompt : String
  papersListJson : String
  detailPages : List (String × String × String)
  overviewHtml : String

/-- Stage 1's writes (`save_json` of `search_results.json` in
`_execute_step1`). -/
def step1Writes (d : StageDyn) : List FileWrite :=
  [⟨⟨"step1_search", "search_results.json"⟩, d.artifact⟩]

/-- Stage 2's writes: each downloaded PDF and extracted text under
`step2_details/pdfs`, then `papers_details.json`. -/
def step2Writes (d : StageDyn) : List FileWrite :=
  (d.pmcids.flatMap (fun c =>
    [⟨⟨"step2_details/pdfs", c ++ ".pdf"⟩, d.pdfContent c⟩,
     ⟨⟨"step2_details/pdfs", c ++ ".txt"⟩, d.txtContent c⟩])) ++
  [⟨⟨"step2_details", "papers_details.json"⟩, d.artifact⟩]

/-- Stage 3's writes: each screenshot `<pmcid>_<figid>.png` under
`step3_figures/images`, then `figures_info.json`. -/
def step3Writes (d : StageDyn) : List FileWrite :=
  (d.shots.map (fun t =>
    ⟨⟨"step3_figures/images", t.1 ++ "_" ++ t.2.1 ++ ".png"⟩, t.2.2⟩)) ++
  [⟨⟨"step3_figures", "figures_info.json"⟩, d.artifact⟩]

/-- Stage 4's writes: one `prompt_<pmid>.txt` per paper, then
`prompts_info.json`. -/
def step4Writes (d : StageDyn) : List FileWrite :=
  (d.prompts.map (fun pr =>
    ⟨⟨"step4_prompts", "prompt_" ++ pr.1 ++ ".txt"⟩, pr.2⟩)) ++
  [⟨⟨"step4_prompts", "prompts_info.json"⟩, d.artifact⟩]

/-- Stage 5's writes: `merged_prompt.txt`, `papers_list.json`,
`overview_info.json`, all in `step5_overview`. -/
def step5Writes (d : StageDyn) : List FileWrite :=
  [⟨⟨"step5_overview", "merged_prompt.txt"⟩, d.mergedPrompt⟩,
   ⟨⟨"step5_overview", "papers_list.json"⟩, d.papersListJson⟩,
   ⟨⟨"step5_overview", "overview_info.json"⟩, d.artifact⟩]

/-- Stage 6's writes: one `<pmid>_<slug>.html` per paper and
`overview_report.html` in `FinalOutput`, then `report_info.json` in
`step6_report` (the processor's save). -/
def step6Writes (d : StageDyn) : List FileWrite :=
  (d.detailPages.map (fun t =>
    ⟨⟨"FinalOutput", t.1 ++ "_" ++ t.2.1 ++ ".html"⟩, t.2.2⟩)) ++
  [⟨⟨"FinalOutput", "overview_report.html"⟩, d.overviewHtml⟩,
   ⟨⟨"step6_report", "report_info.json"⟩, d.artifact⟩]

/-- All file writes of one run of stage `n` (other than the
orchestrator's status-record write of `project_summary.json` at the
project root, treated separately). -/
def stageWrites (n : Nat) (d : StageDyn) : List FileWrite :=
  if n = 1 then step1Writes d
  else if n = 2 then step2Writes d
  else if n = 3 then step3Writes d
  else if n = 4 then step4Writes d
  else if n = 5 then step5Writes d
  else if n = 6 then step6Writes d
  else []

/-- The project file system keyed by structured paths. -/
def PFS := FPath → Option String

/-- Apply a list of writes in order (each an `open(..., 'w')` +
write). -/
def applyWrites (fs : PFS) (ws : List FileWrite) : PFS :=
  ws.foldl (fun g w => fun p => if p = w.path then some w.content else g p) fs

/-! Concrete fixtures used by witnesses and counterexamples. -/

/-- A handler function where every stage succeeds. -/
def allOkHandler : Int → HandlerBehavior :=
  fun _ => ⟨.returns (.ok "data"), []⟩

/-- A handler function where stage 2 fails with a structured result and
every other stage succeeds. -/
def failing2Handler : Int → HandlerBehavior :=
  fun n => if n = 2 then ⟨.returns (.err "boom"), []⟩
           else ⟨.returns (.ok "data"), []⟩

/-- A handler function where stage 2 raises an exception and every other
stage succeeds. -/
def raising2Handler : Int → HandlerBehavior :=
  fun n => if n = 2 then ⟨.raises "boom", []⟩
           else ⟨.returns (.ok "data"), []⟩

/-- A handler function where stage 1 raises an exception and every other
stage succeeds. -/
def raising1Handler : Int → HandlerBehavior :=
  fun n => if n = 1 then ⟨.raises "io", []⟩
           else ⟨.returns (.ok "data"), []⟩

/-- A basic-info collaborator returning no papers, for witnesses. -/
def okInfoCollab : List String → Except String (List Paper) :=
  fun _ => .ok []

/-- A figure collaborator that finds nothing, for witnesses. -/
def noFigCollab : String → List Figure :=
  fun _ => []

/-- Concrete dynamic stage data, for witnesses. -/
def sampleDyn : StageDyn :=
  { artifact := "art", pmcids := ["PMC1"], pdfContent := fun _ => "pdf",
    txtContent := fun _ => "txt", shots := [("PMC1", "fig1", "png")],
    prompts := [("100", "prompt")], mergedPrompt := "m", papersListJson := "pl",
    detailPages := [("100", "slug", "html")], overviewHtml := "ov" }

/-- A concrete project file system, for witnesses. -/
def samplePfs : PFS := fun _ => some "old"

/-- Stage 3's artifact path, for witnesses. -/
def samplePath : FPath := ⟨"step3_figures", "figures_info.json"⟩

/-- A file system with one existing JSON file, for the `save_json`
analysis. -/
def oldFileFs : FSys :=
  fun p => if p = "data.json" then some "old" else none

/-- A handler function where stage 5 fails with a structured result and
every other stage succeeds. -/
def failing5Handler : Int → HandlerBehavior :=
  fun n => if n = 5 then ⟨.returns (.err "boom5"), []⟩
           else ⟨.returns (.ok "data"), []⟩

/-- A constant slug function, for witnesses. -/
def sampleSlug : String → String := fun _ => "slug"


/-- A paper whose stage-2 record claims `fulltext_status = 'success'`
but carries no `fulltext_path` (e.g. hand-edited or partially written
artifact). -/
def successNoPathPaper : Paper :=
  { pmid := "100", title := "T", abstract := some "A", authors := ["X"],
    journal := "J", pub_date := "2024",
    fulltext_status := some "success", fulltext_path := none }

/-- A paper with an extracted full text of five words at
`pdfs/PMC1.txt`. -/
def fiveWordPaper : Paper :=
  { pmid := "101", title := "T", abstract := some "A", authors := ["X"],
    journal := "J", pub_date := "2024",
    pmcid := some "PMC1", fulltext_status := some "success",
    fulltext_path := some "pdfs/PMC1.txt", fulltext_word_count := some 5 }

/-- A file system holding that paper's extracted text. -/
def fiveWordFs : FSys :=
  fun p => if p = "proj/step2_details/pdfs/PMC1.txt" then some "one two three four five"
           else none

/-- The empty file system. -/
def emptyFs : FSys := fun _ => none

/-- A two-paper search artifact. -/
def twoPaperSearch : SearchResult :=
  { success := true, error := none, query := "q", total_found := 2,
    returned_count := 2,
    papers := [
      { pmid := "100", title := "T0", abstract := some "A0", authors := ["X"],
        journal := "J", pub_date := "2024" },
      { pmid := "101", title := "T1", abstract := some "A1", authors := ["Y"],
        journal := "J", pub_date := "2024" }] }

/-- A stage-2 artifact holding the two sample papers, for witnesses. -/
def sampleDetails : DetailsResult :=
  ⟨true, none, twoPaperSearch.papers⟩

end Pubmed

namespace Pubmed

/-- Claim C1 — for every project and stage `n` in 1..6, a successful
`execute_step(project, n)` persists `current_step = n` and
`status = "stepN_completed"`; a fully successful grouped run 1-3 leaves
the record at stage 3, a fully successful grouped run 4-6 at stage 6,
and inside a grouped run each stage's success is persisted before the
next stage runs (observed here through a stage-2 structured failure
leaving the record at `step1_completed`). -/
theorem execute_step_success_updates_status :
    (∀ (h : Int → HandlerBehavior) (s : ProjectSummary) (n : Int) (r : StepResult),
      (executeStep h s n).outcome = .returns r → r.success = true →
      (executeStep h s n).summary.current_step = n ∧
      (executeStep h s n).summary.status = "step" ++ toString n ++ "_completed")
    ∧ (∀ h : Int → HandlerBehavior,
      (executeSteps1to3 h).1.success = true →
      (executeSteps1to3 h).2 = ⟨"step3_completed", 3⟩)
    ∧ (∀ (h : Int → HandlerBehavior) (s : ProjectSummary),
      (executeSteps4to6 h s).1.success = true →
      (executeSteps4to6 h s).2 = ⟨"step6_completed", 6⟩) := by
  refine ⟨?_, ?_, ?_⟩
  · intro h s n r hret hsucc
    by_cases hrange : 1 ≤ n ∧ n ≤ 6
    · rcases hout : (h n).outcome with r' | m
      · by_cases hs : r'.success
        · simp [executeStep, hrange, hout, hs, updateStatus]
        · simp [executeStep, hrange, hout, hs] at hret
          subst hret
          exact absurd hsucc hs
      · simp [executeStep, hrange, hout] at hret
    · simp [executeStep, hrange] at hret
      subst hret
      simp [StepResult.success] at hsucc
  · intro h hsucc
    rcases h1 : (h 1).outcome with r1 | m
    · by_cases hs1 : r1.success
      · rcases h2 : (h 2).outcome with r2 | m
        · by_cases hs2 : r2.success
          · rcases h3 : (h 3).outcome with r3 | m
            · by_cases hs3 : r3.success
              · simp [executeSteps1to3, h1, hs1, h2, hs2, h3, hs3, updateStatus,
                  initialSummary]
              · simp [executeSteps1to3, h1, hs1, h2, hs2, h3, hs3] at hsucc
            · simp [executeSteps1to3, h1, hs1, h2, hs2, h3] at hsucc
              simp [StepResult.success] at hsucc
          · simp [executeSteps1to3, h1, hs1, h2, hs2] at hsucc
        · simp [executeSteps1to3, h1, hs1, h2] at hsucc
          simp [StepResult.success] at hsucc
      · simp [executeSteps1to3, h1, hs1] at hsucc
    · simp [executeSteps1to3, h1] at hsucc
      simp [StepResult.success] at hsucc
  · intro h s hsucc
    rcases h4 : (h 4).outcome with r4 | m
    · by_cases hs4 : r4.success
      · rcases h5 : (h 5).outcome with r5 | m
        · by_cases hs5 : r5.success
          · rcases h6 : (h 6).outcome with r6 | m
            · by_cases hs6 : r6.success
              · simp [executeSteps4to6, h4, hs4, h5, hs5, h6, hs6, updateStatus]
              · simp [executeSteps4to6, h4, hs4, h5, hs5, h6, hs6] at hsucc
            · simp [executeSteps4to6, h4, hs4, h5, hs5, h6] at hsucc
              simp [StepResult.success] at hsucc
          · simp [executeSteps4to6, h4, hs4, h5, hs5] at hsucc
        · simp [executeSteps4to6, h4, hs4, h5] at hsucc
          simp [StepResult.success] at hsucc
      · simp [executeSteps4to6, h4, hs4] at hsucc
    · simp [executeSteps4to6, h4] at hsucc
      simp [StepResult.success] at hsucc

/-- Witness for C1: running stage 2 with an everywhere-successful
handler from the freshly created summary persists
`current_step = 2, status = "step2_completed"`. -/
theorem execute_step_success_updates_status_witness :
    (executeStep allOkHandler initialSummary 2).summary.current_step = 2 ∧
    (executeStep allOkHandler initialSummary 2).summary.status = "step2_completed" := by
  have h := execute_step_success_updates_status.1 allOkHandler initialSummary 2
    (.ok "data") (by decide) (by decide)
  exact ⟨h.1, h.2⟩

/-- Counterexample to claim C2: with stage 1 succeeding and stage 2
failing with a structured result (`failing2Handler`), the grouped run
leaves the status record at `step1_completed` — no error state and no
error message are persisted; and with stage 2 raising
(`raising2Handler`), the error is persisted but `current_step` becomes
`-1`, not the last successfully completed stage `1`. -/
theorem stage_failure_claim_cex :
    (executeSteps1to3 failing2Handler).1 = .err "boom" ∧
    (executeSteps1to3 failing2Handler).2 = ⟨"step1_completed", 1⟩ ∧
    (executeSteps1to3 failing2Handler).2.status ≠ "error: boom" ∧
    (executeSteps1to3 raising2Handler).2 = ⟨"error: boom", -1⟩ ∧
    (executeSteps1to3 raising2Handler).2.current_step ≠ 1 := by
  decide

/-- Claim C2 (amended) — for every stage, failing with a structured
result does not update the status record at all: `current_step` remains
at the last successfully completed stage but no error status or message
is persisted (so resumption retries the failed stage); only an
exception escaping a stage during a grouped run persists the error
message, and it sets `current_step = -1` rather than leaving it at the
last completed stage.  Proved at every failure point: `execute_step`
for every stage number, and each of the three stages of both grouped
operations, for both structured failures and exceptions. -/
theorem stage_failure_status_semantics :
    (∀ (h : Int → HandlerBehavior) (s : ProjectSummary) (n : Int) (r : StepResult),
      (executeStep h s n).outcome = .returns r → r.success = false →
      (executeStep h s n).summary = s)
    ∧ (∀ (h : Int → HandlerBehavior) (r1 : StepResult),
        (h 1).outcome = .returns r1 → r1.success = false →
        (executeSteps1to3 h).1 = r1 ∧ (executeSteps1to3 h).2 = initialSummary)
    ∧ (∀ (h : Int → HandlerBehavior) (r1 r2 : StepResult),
        (h 1).outcome = .returns r1 → r1.success = true →
        (h 2).outcome = .returns r2 → r2.success = false →
        (executeSteps1to3 h).1 = r2 ∧
        (executeSteps1to3 h).2 = ⟨"step1_completed", 1⟩)
    ∧ (∀ (h : Int → HandlerBehavior) (r1 r2 r3 : StepResult),
        (h 1).outcome = .returns r1 → r1.success = true →
        (h 2).outcome = .returns r2 → r2.success = true →
        (h 3).outcome = .returns r3 → r3.success = false →
        (executeSteps1to3 h).1 = r3 ∧
        (executeSteps1to3 h).2 = ⟨"step2_completed", 2⟩)
    ∧ (∀ (h : Int → HandlerBehavior) (m : String),
        (h 1).outcome = .raises m →
        (executeSteps1to3 h).2 = ⟨"error: " ++ m, -1⟩)
    ∧ (∀ (h : Int → HandlerBehavior) (r1 : StepResult) (m : String),
        (h 1).outcome = .returns r1 → r1.success = true →
        (h 2).outcome = .raises m →
        (executeSteps1to3 h).2 = ⟨"error: " ++ m, -1⟩)
    ∧ (∀ (h : Int → HandlerBehavior) (r1 r2 : StepResult) (m : String),
        (h 1).outcome = .returns r1 → r1.success = true →
        (h 2).outcome = .returns r2 → r2.success = true →
        (h 3).outcome = .raises m →
        (executeSteps1to3 h).2 = ⟨"error: " ++ m, -1⟩)
    ∧ (∀ (h : Int → HandlerBehavior) (s : ProjectSummary) (r4 : StepResult),
        (h 4).outcome = .returns r4 → r4.success = false →
        (executeSteps4to6 h s).1 = r4 ∧ (executeSteps4to6 h s).2 = s)
    ∧ (∀ (h : Int → HandlerBehavior) (s : ProjectSummary) (r4 r5 : StepResult),
        (h 4).outcome = .returns r4 → r4.success = true →
        (h 5).outcome = .returns r5 → r5.success = false →
        (executeSteps4to6 h s).1 = r5 ∧
        (executeSteps4to6 h s).2 = ⟨"step4_completed", 4⟩)
    ∧ (∀ (h : Int → HandlerBehavior) (s : ProjectSummary) (r4 r5 r6 : StepResult),
        (h 4).outcome = .returns r4 → r4.success = true →
        (h 5).outcome = .returns r5 → r5.success = true →
        (h 6).outcome = .returns r6 → r6.success = false →
        (executeSteps4to6 h s).1 = r6 ∧
        (executeSteps4to6 h s).2 = ⟨"step5_completed", 5⟩)
    ∧ (∀ (h : Int → HandlerBehavior) (s : ProjectSummary) (m : String),
        (h 4).outcome = .raises m →
        (executeSteps4to6 h s).2 = ⟨"error: " ++ m, -1⟩)
    ∧ (∀ (h : Int → HandlerBehavior) (s : ProjectSummary) (r4 : StepResult)
        (m : String),
        (h 4).outcome = .returns r4 → r4.success = true →
        (h 5).outcome = .raises m →
        (executeSteps4to6 h s).2 = ⟨"error: " ++ m, -1⟩)
    ∧ (∀ (h : Int → HandlerBehavior) (s : ProjectSummary) (r4 r5 : StepResult)
        (m : String),
        (h 4).outcome = .returns r4 → r4.success = true →
        (h 5).outcome = .returns r5 → r5.success = true →
        (h 6).outcome = .raises m →
        (executeSteps4to6 h s).2 = ⟨"error: " ++ m, -1⟩) := by
  refine ⟨?_, ?_, ?_, ?_, ?_, ?_, ?_, ?_, ?_, ?_, ?_, ?_, ?_⟩
  · intro h s n r hret hfail
    by_cases hrange : 1 ≤ n ∧ n ≤ 6
    · rcases hout : (h n).outcome with r' | m
      · by_cases hs : r'.success
        · simp [executeStep, hrange, hout, hs] at hret
          subst hret
          rw [hs] at hfail
          exact absurd hfail (by simp)
        · simp [executeStep, hrange, hout, hs]
      · simp [executeStep, hrange, hout] at hret
    · simp [executeStep, hrange]
  · intro h r1 h1 hs1
    simp [executeSteps1to3, h1, hs1, initialSummary]
  · intro h r1 r2 h1 hs1 h2 hs2
    simp [executeSteps1to3, h1, hs1, h2, hs2, updateStatus, initialSummary]
  · intro h r1 r2 r3 h1 hs1 h2 hs2 h3 hs3
    simp [executeSteps1to3, h1, hs1, h2, hs2, h3, hs3, updateStatus,
      initialSummary]
  · intro h m h1
    simp [executeSteps1to3, h1, updateStatus, initialSummary]
  · intro h r1 m h1 hs1 h2
    simp [executeSteps1to3, h1, hs1, h2, updateStatus, initialSummary]
  · intro h r1 r2 m h1 hs1 h2 hs2 h3
    simp [executeSteps1to3, h1, hs1, h2, hs2, h3, updateStatus, initialSummary]
  · intro h s r4 h4 hs4
    simp [executeSteps4to6, h4, hs4]
  · intro h s r4 r5 h4 hs4 h5 hs5
    simp [executeSteps4to6, h4, hs4, h5, hs5, updateStatus]
  · intro h s r4 r5 r6 h4 hs4 h5 hs5 h6 hs6
    simp [executeSteps4to6, h4, hs4, h5, hs5, h6, hs6, updateStatus]
  · intro h s m h4
    simp [executeSteps4to6, h4, updateStatus]
  · intro h s r4 m h4 hs4 h5
    simp [executeSteps4to6, h4, hs4, h5, updateStatus]
  · intro h s r4 r5 m h4 hs4 h5 hs5 h6
    simp [executeSteps4to6, h4, hs4, h5, hs5, h6, updateStatus]

/-- Witness for the amended C2 at concrete inputs: a structured stage-2
failure leaves the freshly created summary unchanged under
`execute_step` and at `step1_completed` in the grouped run; a stage-2
exception in the grouped run is recorded as an error with
`current_step = -1`; and a structured stage-5 failure in the 4-6 group
leaves the record at `step4_completed`. -/
theorem stage_failure_status_semantics_witness :
    (executeStep failing2Handler initialSummary 2).summary = initialSummary ∧
    (executeSteps1to3 failing2Handler).2 = ⟨"step1_completed", 1⟩ ∧
    (executeSteps1to3 raising2Handler).2 = ⟨"error: " ++ "boom", -1⟩ ∧
    (executeSteps4to6 failing5Handler initialSummary).2 =
      ⟨"step4_completed", 4⟩ := by
  refine ⟨?_, ?_, ?_, ?_⟩
  · exact stage_failure_status_semantics.1 failing2Handler initialSummary 2
      (.err "boom") (by decide) (by decide)
  · exact (stage_failure_status_semantics.2.2.1 failing2Handler (.ok "data")
      (.err "boom") (by decide) (by decide) (by decide) (by decide)).2
  · exact stage_failure_status_semantics.2.2.2.2.2.1 raising2Handler
      (.ok "data") "boom" (by decide) (by decide) (by decide)
  · exact (stage_failure_status_semantics.2.2.2.2.2.2.2.2.1 failing5Handler
      initialSummary (.ok "data") (.err "boom5") (by decide) (by decide)
      (by decide) (by decide)).2

/-- Counterexample to claim C3: an exception raised inside the stage-2
handler during `execute_step` is not caught at the orchestrator
boundary: it propagates to the caller as a raw exception, and the status
record is left unchanged (in particular `current_step` is not set to
`-1`). -/
theorem execute_step_exception_cex :
    (executeStep raising2Handler initialSummary 2).outcome = .raises "boom" ∧
    (executeStep raising2Handler initialSummary 2).summary = initialSummary ∧
    initialSummary.current_step ≠ -1 := by
  decide

/-- Claim C3 (amended) — an exception raised inside a stage's body is
caught by the stage itself and converted to
`{success: false, error: message}` (shown for stage 1's collaborator
calls); an exception escaping a stage handler is caught and recorded
with `current_step = -1` only by the grouped operations; under
`execute_step` such an exception propagates to the caller and the
status record is unchanged. -/
theorem exception_handling_semantics :
    (∀ (fp : Except String (List String))
       (fb : List String → Except String (List Paper)) (q m : String),
      fp = .error m →
      (PubMedSearcher.search fp fb q).success = false ∧
      (PubMedSearcher.search fp fb q).error = some m)
    ∧ (∀ (h : Int → HandlerBehavior) (m : String),
        (h 1).outcome = .raises m →
        executeSteps1to3 h = (.err m, ⟨"error: " ++ m, -1⟩))
    ∧ (∀ (h : Int → HandlerBehavior) (s : ProjectSummary) (n : Int) (m : String),
        1 ≤ n → n ≤ 6 → (h n).outcome = .raises m →
        (executeStep h s n).outcome = .raises m ∧
        (executeStep h s n).summary = s) := by
  refine ⟨?_, ?_, ?_⟩
  · intro fp fb q m hfp
    subst hfp
    simp [PubMedSearcher.search, StepResult.success]
  · intro h m h1
    simp [executeSteps1to3, h1, updateStatus, initialSummary]
  · intro h s n m hn1 hn6 hout
    have hrange : 1 ≤ n ∧ n ≤ 6 := ⟨hn1, hn6⟩
    simp [executeStep, hrange, hout]

/-- Witness for the amended C3 at concrete inputs: a failed collaborator
call is converted to a structured failure inside stage 1, a stage-1
exception in the grouped run is recorded with `current_step = -1`, and a
stage-2 exception under `execute_step` propagates raw. -/
theorem exception_handling_semantics_witness :
    (PubMedSearcher.search (.error "net down") okInfoCollab "q").success = false ∧
    executeSteps1to3 raising1Handler = (.err "io", ⟨"error: " ++ "io", -1⟩) ∧
    (executeStep raising2Handler initialSummary 2).outcome = .raises "boom" := by
  refine ⟨?_, ?_, ?_⟩
  · exact (exception_handling_semantics.1 (.error "net down") okInfoCollab "q"
      "net down" rfl).1
  · exact exception_handling_semantics.2.1 raising1Handler "io" (by decide)
  · exact (exception_handling_semantics.2.2 raising2Handler initialSummary 2
      "boom" (by decide) (by decide) (by decide)).1

/-- Counterexample to claim C4: a paper whose record says
`fulltext_status = 'success'` but has no `fulltext_path` makes both
stage 4 and stage 5 select the abstract, so full text is not selected
"exactly when `fulltext_status == 'success'`". -/
theorem content_selection_cex :
    successNoPathPaper.fulltext_status = some "success" ∧
    (PromptGenerator.getPaperContent emptyFs "proj" successNoPathPaper).source =
      "abstract" ∧
    (MergedPromptGenerator.getPaperContent emptyFs "proj" 8000
      successNoPathPaper).source = "abstract" := by
  decide

/-- Claim C4 (amended) — stage 4 and stage 5 independently select the
extracted full text exactly when `fulltext_status == 'success'` AND a
non-empty `fulltext_path` is present AND that file is readable; in
every other case both select the abstract; and the provenance tag
always matches the source actually used (stage 4's note is the
full-text note or the status-derived abstract note; stage 5's label is
`[全文]`/`[全文-已截取前N词]` or `[摘要]`). -/
theorem content_selection_semantics :
    ∀ (fs : FSys) (pp : String) (maxW : Nat) (paper : Paper),
      ((PromptGenerator.getPaperContent fs pp paper).source = "fulltext" ↔
        fulltextSelectable fs pp paper = true) ∧
      ((MergedPromptGenerator.getPaperContent fs pp maxW paper).source = "fulltext" ↔
        fulltextSelectable fs pp paper = true) ∧
      ((PromptGenerator.getPaperContent fs pp paper).source = "fulltext" ∨
        (PromptGenerator.getPaperContent fs pp paper).source = "abstract") ∧
      ((MergedPromptGenerator.getPaperContent fs pp maxW paper).source = "fulltext" ∨
        (MergedPromptGenerator.getPaperContent fs pp maxW paper).source = "abstract") ∧
      ((PromptGenerator.getPaperContent fs pp paper).source = "abstract" →
        (PromptGenerator.getPaperContent fs pp paper).note =
          statusNotes (paper.fulltext_status.getD "")) ∧
      ((PromptGenerator.getPaperContent fs pp paper).source = "fulltext" →
        (PromptGenerator.getPaperContent fs pp paper).note =
          "[全文内容 - 约" ++
            toString (paper.fulltext_word_count.getD
              (pySplit (PromptGenerator.getPaperContent fs pp paper).text).length) ++
            "词]") ∧
      ((MergedPromptGenerator.getPaperContent fs pp maxW paper).source = "abstract" →
        sourceLabel maxW (MergedPromptGenerator.getPaperContent fs pp maxW paper) =
          "[摘要]") ∧
      ((MergedPromptGenerator.getPaperContent fs pp maxW paper).source = "fulltext" →
        sourceLabel maxW (MergedPromptGenerator.getPaperContent fs pp maxW paper) =
          "[全文]" ∨
        sourceLabel maxW (MergedPromptGenerator.getPaperContent fs pp maxW paper) =
          "[全文-已截取前" ++ toString maxW ++ "词]") := by
  intro fs pp maxW paper
  by_cases hst : paper.fulltext_status.getD "" = "success"
  · rcases hfp : paper.fulltext_path with _ | fp
    · simp [PromptGenerator.getPaperContent, MergedPromptGenerator.getPaperContent,
        fulltextSelectable, sourceLabel, truthyStr, hst, hfp]
    · by_cases hemp : fp = ""
      · subst hemp
        simp [PromptGenerator.getPaperContent, MergedPromptGenerator.getPaperContent,
          fulltextSelectable, sourceLabel, truthyStr, hst, hfp]
      · rcases hread : fs (fulltextFullPath pp fp) with _ | ft
        · simp [PromptGenerator.getPaperContent, MergedPromptGenerator.getPaperContent,
            fulltextSelectable, sourceLabel, truthyStr, hst, hfp, hemp, hread]
        · by_cases hlen : (pySplit ft).length > maxW
          · simp [PromptGenerator.getPaperContent, MergedPromptGenerator.getPaperContent,
              fulltextSelectable, sourceLabel, truthyStr, hst, hfp, hemp, hread, hlen]
          · simp [PromptGenerator.getPaperContent, MergedPromptGenerator.getPaperContent,
              fulltextSelectable, sourceLabel, truthyStr, hst, hfp, hemp, hread, hlen]
  · simp [PromptGenerator.getPaperContent, MergedPromptGenerator.getPaperContent,
      fulltextSelectable, sourceLabel, truthyStr, hst]

/-- Witness for the amended C4: with a readable five-word full text both
stages select full text; with status `success` but no path, stage 4
falls back to the abstract with the default abstract note. -/
theorem content_selection_semantics_witness :
    (PromptGenerator.getPaperContent fiveWordFs "proj" fiveWordPaper).source =
      "fulltext" ∧
    (MergedPromptGenerator.getPaperContent fiveWordFs "proj" 8000
      fiveWordPaper).source = "fulltext" ∧
    (PromptGenerator.getPaperContent emptyFs "proj" successNoPathPaper).note =
      "[以下为摘要]" := by
  refine ⟨?_, ?_, ?_⟩
  · exact (content_selection_semantics fiveWordFs "proj" 8000 fiveWordPaper).1.mpr
      (by decide)
  · exact (content_selection_semantics fiveWordFs "proj" 8000 fiveWordPaper).2.1.mpr
      (by decide)
  · have h := (content_selection_semantics emptyFs "proj" 8000
      successNoPathPaper).2.2.2.2.1 (by decide)
    rw [h]
    decide

/-- Claim C7 — in stage 5, a paper whose readable full text exceeds the
configured word cap yields content flagged `truncated = true` whose text
is exactly the first `maxW` words; the per-paper section embeds that
truncated text and carries the truncation label; and the stage's
overall run succeeds whenever its prerequisites are present, regardless
of truncation. -/
theorem step5_truncation (fs : FSys) (pp : String) (maxW : Nat) (paper : Paper)
    (figures : List Figure) (index : Nat) (fp fulltext : String)
    (hst : paper.fulltext_status = some "success")
    (hfp : paper.fulltext_path = some fp) (hemp : fp ≠ "")
    (hread : fs (fulltextFullPath pp fp) = some fulltext)
    (hlen : (pySplit fulltext).length > maxW) :
    (MergedPromptGenerator.getPaperContent fs pp maxW paper).truncated = true ∧
    (MergedPromptGenerator.getPaperContent fs pp maxW paper).source = "fulltext" ∧
    (MergedPromptGenerator.getPaperContent fs pp maxW paper).text =
      String.intercalate " " ((pySplit fulltext).take maxW) ∧
    sourceLabel maxW (MergedPromptGenerator.getPaperContent fs pp maxW paper) =
      "[全文-已截取前" ++ toString maxW ++ "词]" ∧
    (∃ a b : String,
      MergedPromptGenerator.generatePaperSection fs pp maxW paper figures index =
        a ++ (MergedPromptGenerator.getPaperContent fs pp maxW paper).text ++ b) ∧
    (∀ (sArt : SearchResult) (dArt : DetailsResult) (figArt : Option FiguresResult),
      (MergedPromptGenerator.generateMergedPrompt (some sArt) (some dArt) figArt
        fs pp maxW).success = true) := by
  have hc : MergedPromptGenerator.getPaperContent fs pp maxW paper =
      ⟨"fulltext", String.intercalate " " ((pySplit fulltext).take maxW),
        (pySplit fulltext).length, true⟩ := by
    simp [MergedPromptGenerator.getPaperContent, hst, hfp, hemp, hread, hlen]
  refine ⟨by rw [hc], by rw [hc], by rw [hc], by rw [hc]; simp [sourceLabel], ?_, ?_⟩
  · exact ⟨sectionHead maxW paper
      (MergedPromptGenerator.getPaperContent fs pp maxW paper) index,
      sectionTail figures, rfl⟩
  · intro sArt dArt figArt
    simp [MergedPromptGenerator.generateMergedPrompt]

/-- Witness for C7: the five-word full text truncated to a three-word
cap yields exactly the first three words and the truncation flag and
label. -/
theorem step5_truncation_witness :
    (MergedPromptGenerator.getPaperContent fiveWordFs "proj" 3 fiveWordPaper).truncated =
      true ∧
    (MergedPromptGenerator.getPaperContent fiveWordFs "proj" 3 fiveWordPaper).text =
      "one two three" ∧
    sourceLabel 3 (MergedPromptGenerator.getPaperContent fiveWordFs "proj" 3
      fiveWordPaper) = "[全文-已截取前3词]" := by
  have h := step5_truncation fiveWordFs "proj" 3 fiveWordPaper [] 1 "pdfs/PMC1.txt"
    "one two three four five" (by decide) (by decide) (by decide) (by decide)
    (by decide)
  refine ⟨h.1, ?_, ?_⟩
  · rw [h.2.2.1]; decide
  · rw [h.2.2.2.1]; decide

/-- Stage 2's enrichment never changes a paper's PMID. -/
theorem enrichPaper_pmid (li d2 : String → Option String) (pe : Bool)
    (pr : String → PdfResult) (p : Paper) :
    (enrichPaper li d2 pe pr p).pmid = p.pmid := by
  rcases h : li p.pmid with _ | c <;> by_cases hpe : pe <;>
    simp [enrichPaper, h, hpe]

/-- Stage 3's per-paper task labels its result with the input paper's
PMID. -/
theorem fetchSingle_pmid (bf ui : String → List Figure) (ba : Bool) (p : Paper) :
    (PMCFigureFetcher.fetchSinglePaperFigures bf ui ba p).pmid = p.pmid := by
  rcases h : p.pmcid with _ | c
  · simp [PMCFigureFetcher.fetchSinglePaperFigures, h]
  · simp only [PMCFigureFetcher.fetchSinglePaperFigures, h]
    split_ifs <;> rfl

/-- Evaluating the completion fold: a slot holds its task's result as
soon as its index appears anywhere in the schedule. -/
theorem completeTasks_foldl (f : Paper → PaperFigures) (papers : List Paper) :
    ∀ (sched : List Nat) (acc : Nat → Option PaperFigures) (j : Nat),
      sched.foldl
        (fun acc i => fun j' => if j' = i then (papers.get? i).map f else acc j')
        acc j =
      if j ∈ sched then (papers.get? j).map f else acc j := by
  intro sched
  induction sched with
  | nil => intro acc j; simp
  | cons i rest ih =>
    intro acc j
    simp only [List.foldl_cons]
    rw [ih]
    by_cases hj : j ∈ rest
    · simp [hj]
    · by_cases hji : j = i
      · subst hji; simp [hj]
      · simp [hj, hji]

/-- The slot map after a full schedule. -/
theorem completeTasks_eval (f : Paper → PaperFigures) (papers : List Paper)
    (sched : List Nat) (j : Nat) :
    completeTasks f papers sched j =
      if j ∈ sched then (papers.get? j).map f else none :=
  completeTasks_foldl f papers sched (fun _ => none) j

/-- Any schedule that completes every task yields the results in input
order, independent of the completion order. -/
theorem gatherInOrder_eq (f : Paper → PaperFigures) (papers : List Paper)
    (sched : List Nat) (hcov : ∀ j, j < papers.length → j ∈ sched) :
    gatherInOrder f papers sched = papers.map (fun p => some (f p)) := by
  apply List.ext_getElem
  · simp [gatherInOrder]
  · intro i h1 h2
    have hi : i < papers.length := by simpa [gatherInOrder] using h1
    simp [gatherInOrder, completeTasks_eval, hcov i hi,
      List.get?_eq_getElem?, List.getElem?_eq_getElem, hi]

/-- Claim C8 — every stage with a required upstream artifact (stages
2-5; stage 6 treats all inputs as optional) returns a failure outcome
with a message naming the missing artifact file when that artifact is
absent; nothing in the result triggers a retry. -/
theorem missing_prerequisite_fails :
    ∀ (pp : String) (li d2 : String → Option String) (pe : Bool)
      (pr : String → PdfResult) (bf ui : String → List Figure) (ba : Bool)
      (mk : Paper → List Figure → String) (figArt : Option FiguresResult)
      (fs : FSys) (maxW : Nat) (sArt : SearchResult) (dOpt : Option DetailsResult),
      ((PaperDetailsFetcher.fetchDetails none pp li d2 pe pr).success = false ∧
        (PaperDetailsFetcher.fetchDetails none pp li d2 pe pr).error =
          some ("未找到搜索结果文件: " ++
            pathJoin [pp, "step1_search", "search_results.json"])) ∧
      ((PMCFigureFetcher.fetchFigures none pp bf ui ba).success = false ∧
        (PMCFigureFetcher.fetchFigures none pp bf ui ba).error =
          some ("未找到论文详情文件: " ++
            pathJoin [pp, "step2_details", "papers_details.json"])) ∧
      ((PromptGenerator.generatePrompts none figArt pp mk).success = false ∧
        (PromptGenerator.generatePrompts none figArt pp mk).error =
          some ("文件不存在: " ++
            pathJoin [pp, "step2_details", "papers_details.json"])) ∧
      ((MergedPromptGenerator.generateMergedPrompt none dOpt figArt fs pp
          maxW).success = false ∧
        (MergedPromptGenerator.generateMergedPrompt none dOpt figArt fs pp
          maxW).error =
          some ("文件不存在: " ++
            pathJoin [pp, "step1_search", "search_results.json"])) ∧
      ((MergedPromptGenerator.generateMergedPrompt (some sArt) none figArt fs pp
          maxW).success = false ∧
        (MergedPromptGenerator.generateMergedPrompt (some sArt) none figArt fs pp
          maxW).error =
          some ("文件不存在: " ++
            pathJoin [pp, "step2_details", "papers_details.json"])) := by
  intro pp li d2 pe pr bf ui ba mk figArt fs maxW sArt dOpt
  refine ⟨⟨rfl, rfl⟩, ⟨rfl, rfl⟩, ⟨rfl, rfl⟩, ⟨rfl, rfl⟩, ⟨rfl, rfl⟩⟩

/-- A write list that never touches path `p` leaves `p`'s contents
unchanged. -/
theorem applyWrites_not_touched :
    ∀ (ws : List FileWrite) (fs : PFS) (p : FPath),
      (∀ w ∈ ws, w.path ≠ p) → applyWrites fs ws p = fs p := by
  intro ws
  induction ws with
  | nil => intro fs p _; rfl
  | cons w rest ih =>
    intro fs p hw
    have h1 : w.path ≠ p := hw w (List.mem_cons_self w rest)
    have h2 : ∀ w' ∈ rest, w'.path ≠ p :=
      fun w' hm => hw w' (List.mem_cons_of_mem w hm)
    have hstep : applyWrites fs (w :: rest) =
        applyWrites (fun q => if q = w.path then some w.content else fs q) rest := rfl
    rw [hstep, ih _ p h2]
    exact if_neg (fun hc => h1 hc.symm)

/-- Each stage directory belongs to exactly one stage. -/
theorem dirStage_of_mem (n : Nat) (dd : String) (hd : dd ∈ stageDirs n) :
    dirStage dd = n := by
  unfold stageDirs at hd
  split_ifs at hd with h1 h2 h3 h4 h5 h6 <;> simp at hd
  · subst h1; subst hd; decide
  · subst h2; rcases hd with rfl | rfl <;> decide
  · subst h3; rcases hd with rfl | rfl <;> decide
  · subst h4; subst hd; decide
  · subst h5; subst hd; decide
  · subst h6; rcases hd with rfl | rfl <;> decide

/-- Every write of stage `n` targets one of stage `n`'s own
directories. -/
theorem stageWrites_dir_mem (n : Nat) (d : StageDyn) :
    ∀ w ∈ stageWrites n d, w.path.dir ∈ stageDirs n := by
  intro w hw
  unfold stageWrites at hw
  split_ifs at hw with h1 h2 h3 h4 h5 h6
  · subst h1
    simp [step1Writes] at hw
    subst hw; simp [stageDirs]
  · subst h2
    simp [step2Writes, List.mem_flatMap] at hw
    rcases hw with ⟨c, _, rfl | rfl⟩ | rfl <;> simp [stageDirs]
  · subst h3
    simp [step3Writes] at hw
    rcases hw with ⟨t, u, b, _, rfl⟩ | rfl <;> simp [stageDirs]
  · subst h4
    simp [step4Writes] at hw
    rcases hw with ⟨pr, c, _, rfl⟩ | rfl <;> simp [stageDirs]
  · subst h5
    simp [step5Writes] at hw
    rcases hw with rfl | rfl | rfl <;> simp [stageDirs]
  · subst h6
    simp [step6Writes] at hw
    rcases hw with ⟨t, u, b, _, rfl⟩ | rfl | rfl <;> simp [stageDirs]
  · simp at hw

/-- Claim C6 — a run of stage `n` writes only into stage `n`'s own
directories; for any other stage `m`, every file under stage `m`'s
directories is byte-identical before and after the run; and the status
record (project root, not owned by any stage) is the only write outside
stage directories. -/
theorem stage_write_frame :
    ∀ (n m : Nat) (d : StageDyn) (fs : PFS) (p : FPath),
      (∀ w ∈ stageWrites n d, w.path.dir ∈ stageDirs n) ∧
      (m ≠ n → p.dir ∈ stageDirs m →
        applyWrites fs (stageWrites n d) p = fs p) ∧
      "" ∉ stageDirs m := by
  intro n m d fs p
  refine ⟨stageWrites_dir_mem n d, ?_, ?_⟩
  · intro hmn hpm
    apply applyWrites_not_touched
    intro w hw hc
    apply hmn
    have hw1 := dirStage_of_mem n w.path.dir (stageWrites_dir_mem n d w hw)
    have hw2 := dirStage_of_mem m p.dir hpm
    rw [← hw2, ← hw1, hc]
  · intro hm
    have h0 := dirStage_of_mem m "" hm
    have h1 : dirStage "" = 0 := by decide
    rw [h1] at h0
    subst h0
    simp [stageDirs] at hm

/-- Witness for C6: a stage-2 run does not change stage 3's persisted
artifact file. -/
theorem stage_write_frame_witness :
    applyWrites samplePfs (stageWrites 2 sampleDyn) samplePath =
      samplePfs samplePath :=
  (stage_write_frame 2 3 sampleDyn samplePfs samplePath).2.1 (by decide) (by decide)

/-- `takeWhile` up to the first appended underscore recovers an
underscore-free prefix. -/
theorem takeWhile_append_stop (r : List Char) :
    ∀ l : List Char, (∀ c ∈ l, c ≠ '_') →
      (l ++ '_' :: r).takeWhile (fun c => c != '_') = l := by
  intro l
  induction l with
  | nil => intro _; simp
  | cons c cs ih =>
    intro hl
    have hc : c ≠ '_' := hl c (List.mem_cons_self c cs)
    have hcs : ∀ x ∈ cs, x ≠ '_' := fun x hx => hl x (List.mem_cons_of_mem c hx)
    simp [List.takeWhile_cons, hc, ih hcs]

/-- The overview's `file_map` key `f.split('_')[0]` recovers the PMID
from a detail file name, for PMIDs without underscores. -/
theorem pmidOfFile_detailFileName (slugOf : String → String) (p : Paper)
    (hp : ∀ c ∈ p.pmid.data, c ≠ '_') :
    pmidOfFile (ReportGenerator.detailFileName slugOf p) = p.pmid := by
  unfold pmidOfFile ReportGenerator.detailFileName
  have hdata : (p.pmid ++ "_" ++ slugOf p.title ++ ".html").data =
      p.pmid.data ++ '_' :: (slugOf p.title ++ ".html").data := by
    simp [String.data_append]
  rw [hdata, takeWhile_append_stop _ _ hp]

/-- Claim C5 — every stage's output lists papers in exactly the stage-1
order: stage 2's enrichment is an order-preserving map; stage 3's
concurrent fan-out deposits results by input index and `asyncio.gather`
returns them in input order for every covering completion schedule (so
the persisted artifact is in stage-1 order regardless of completion
order); stages 4 and 5 enumerate papers in artifact order with no
re-sorting; and stage 6 renders its detail pages and its overview paper
list in the same order (with the `file_map` keys recovering the PMIDs
in order for underscore-free PMIDs). -/
theorem order_preservation :
    ∀ (li d2 : String → Option String) (pe : Bool) (pr : String → PdfResult)
      (sArt : SearchResult) (pp : String) (bf ui : String → List Figure)
      (ba : Bool) (f : Paper → PaperFigures) (papers : List Paper)
      (sched : List Nat) (figArt : Option FiguresResult)
      (mk : Paper → List Figure → String) (dArt : DetailsResult) (fs : FSys)
      (maxW : Nat) (slugOf : String → String) (detailFiles : List String),
      ((PaperDetailsFetcher.fetchDetails (some sArt) pp li d2 pe pr).papers.map
          Paper.pmid = sArt.papers.map Paper.pmid) ∧
      ((∀ j, j < papers.length → j ∈ sched) →
        gatherInOrder f papers sched = papers.map (fun p => some (f p))) ∧
      ((∀ j, j < papers.length → j ∈ sched) →
        (gatherInOrder (PMCFigureFetcher.fetchSinglePaperFigures bf ui ba)
            papers sched).map (Option.map PaperFigures.pmid) =
          papers.map (fun p => some p.pmid)) ∧
      ((PMCFigureFetcher.fetchFigures (some dArt) pp bf ui ba).papers.map
          PaperFigures.pmid = dArt.papers.map Paper.pmid) ∧
      ((PromptGenerator.generatePrompts (some dArt) figArt pp mk).prompts.map
          PromptInfo.pmid = dArt.papers.map Paper.pmid) ∧
      ((MergedPromptGenerator.papersListEntries fs pp maxW figArt
          dArt.papers).map PaperListEntry.pmid = dArt.papers.map Paper.pmid) ∧
      ((ReportGenerator.generateReport (some dArt) true slugOf).detail_files =
        dArt.papers.map (ReportGenerator.detailFileName slugOf)) ∧
      ((ReportGenerator.generateReport (some dArt) false slugOf).detail_files =
        []) ∧
      ((∀ p ∈ dArt.papers, ∀ c ∈ p.pmid.data, c ≠ '_') →
        (ReportGenerator.generateReport (some dArt) true slugOf).detail_files.map
            pmidOfFile = dArt.papers.map Paper.pmid) ∧
      ((ReportGenerator.papersListItems detailFiles dArt.papers).map
          ReportListItem.pmid = dArt.papers.map Paper.pmid) := by
  intro li d2 pe pr sArt pp bf ui ba f papers sched figArt mk dArt fs maxW
    slugOf detailFiles
  refine ⟨?_, ?_, ?_, ?_, ?_, ?_, ?_, ?_, ?_, ?_⟩
  · by_cases hemp : sArt.papers.isEmpty
    · rw [List.isEmpty_iff] at hemp
      simp [PaperDetailsFetcher.fetchDetails, hemp]
    · have hpap : (PaperDetailsFetcher.fetchDetails (some sArt) pp li d2 pe pr).papers =
          sArt.papers.map (enrichPaper li d2 pe pr) := by
        simp [PaperDetailsFetcher.fetchDetails, hemp]
      rw [hpap, List.map_map]
      refine List.map_congr_left ?_
      intro a _
      exact enrichPaper_pmid li d2 pe pr a
  · exact gatherInOrder_eq f papers sched
  · intro hcov
    rw [gatherInOrder_eq _ papers sched hcov, List.map_map]
    refine List.map_congr_left ?_
    intro a _
    simp [fetchSingle_pmid]
  · simp only [PMCFigureFetcher.fetchFigures, List.map_map]
    refine List.map_congr_left ?_
    intro a _
    simp [fetchSingle_pmid]
  · simp [PromptGenerator.generatePrompts, List.map_map, Function.comp]
  · simp [MergedPromptGenerator.papersListEntries, List.map_map, Function.comp]
  · simp [ReportGenerator.generateReport, ReportGenerator.reportPapers]
  · simp [ReportGenerator.generateReport, ReportGenerator.reportPapers]
  · intro hp
    simp only [ReportGenerator.generateReport, ReportGenerator.reportPapers,
      if_true, List.map_map]
    refine List.map_congr_left ?_
    intro a ha
    exact pmidOfFile_detailFileName slugOf a (hp a ha)
  · simp [ReportGenerator.papersListItems, List.map_map, Function.comp]

/-- Witness for C5: two papers with the completion schedule that
finishes the second paper first still produce the stage-3 artifact in
stage-1 order, and stage 6's detail pages list recovers the PMIDs in
that same order. -/
theorem order_preservation_witness :
    (gatherInOrder
        (PMCFigureFetcher.fetchSinglePaperFigures noFigCollab noFigCollab false)
        twoPaperSearch.papers [1, 0]).map (Option.map PaperFigures.pmid) =
      [some "100", some "101"] ∧
    (ReportGenerator.generateReport (some sampleDetails) true
        sampleSlug).detail_files.map pmidOfFile = ["100", "101"] := by
  have hcov : ∀ j, j < twoPaperSearch.papers.length → j ∈ [1, 0] := by
    intro j hj
    have h2 : j < 2 := by simpa [twoPaperSearch] using hj
    interval_cases j <;> decide
  have h := order_preservation (fun _ => none) (fun _ => none) false
    (fun _ => ⟨none, none, "", 0⟩) twoPaperSearch "proj" noFigCollab noFigCollab
    false (PMCFigureFetcher.fetchSinglePaperFigures noFigCollab noFigCollab false)
    twoPaperSearch.papers [1, 0] none (fun _ _ => "") sampleDetails emptyFs
    0 sampleSlug []
  constructor
  · rw [h.2.2.1 hcov]
    decide
  · rw [h.2.2.2.2.2.2.2.2.1 (by decide)]
    decide

/-- Counterexample to claim C9: `save_json` is not atomic.  During a
call that overwrites `data.json` (old contents `"old"`, new contents
`"new"`) the file system passes through the post-truncation state, in
which a reader observes the file with contents `""` — neither the old
nor the new contents, i.e. a partially written file.  Both mutating
operations target the destination path itself: there is no
write-temp-then-rename. -/
theorem save_json_not_atomic_cex :
    saveJsonStates oldFileFs "data.json" "new" =
      [oldFileFs, setFile oldFileFs "data.json" "",
        setFile oldFileFs "data.json" "new"] ∧
    setFile oldFileFs "data.json" "" "data.json" = some "" ∧
    ("" : String) ≠ "old" ∧ ("" : String) ≠ "new" ∧
    saveJsonTargets "data.json" = ["data.json", "data.json"] := by
  refine ⟨rfl, by simp [setFile], by decide, by decide, rfl⟩

/-- Claim C9 (amended) — `save_json` writes the destination file in
place: it truncates the destination and then writes the serialized
data into it, so the intermediate (post-truncation) state is observable
to a concurrent or interrupted reader and differs from both the old and
the new contents; the final state holds the full data; and every
mutating operation of the call targets the destination path itself (no
temporary file, no rename). -/
theorem save_json_in_place (fs : FSys) (p old data : String)
    (hold : fs p = some old) (hone : old ≠ "") (htwo : data ≠ "") :
    (saveJsonStates fs p data).get? 1 = some (setFile fs p "") ∧
    setFile fs p "" p = some "" ∧
    some ("" : String) ≠ some old ∧ some ("" : String) ≠ some data ∧
    (saveJsonStates fs p data).get? 2 = some (setFile fs p data) ∧
    setFile fs p data p = some data ∧
    saveJsonTargets p = [p, p] := by
  refine ⟨rfl, by simp [setFile], ?_, ?_, rfl, by simp [setFile], rfl⟩
  · exact fun h => hone ((Option.some.inj h).symm)
  · exact fun h => htwo ((Option.some.inj h).symm)

/-- Witness for the amended C9 at the concrete overwrite of
`data.json`. -/
theorem save_json_in_place_witness :
    (saveJsonStates oldFileFs "data.json" "new").get? 1 =
      some (setFile oldFileFs "data.json" "") ∧
    setFile oldFileFs "data.json" "" "data.json" = some "" ∧
    saveJsonTargets "data.json" = ["data.json", "data.json"] := by
  have h := save_json_in_place oldFileFs "data.json" "old" "new" (by decide)
    (by decide) (by decide)
  exact ⟨h.1, h.2.1, h.2.2.2.2.2.2⟩

/-- Claim C10 — `execute_step` with a step number outside 1..6 returns
`{'success': False, 'error': '无效的步骤号: N'}` naming the invalid
number, performs no file write at all, and leaves the status record
unchanged. -/
theorem invalid_step_rejected :
    ∀ (h : Int → HandlerBehavior) (s : ProjectSummary) (n : Int),
      n < 1 ∨ 6 < n →
      executeStep h s n =
        ⟨.returns (.err ("无效的步骤号: " ++ toString n)), s, []⟩ := by
  intro h s n hn
  have hrange : ¬ (1 ≤ n ∧ n ≤ 6) := by omega
  simp [executeStep, hrange]

/-- Witness for C10: step number 7 is rejected with the error message
`无效的步骤号: 7`, no writes, unchanged summary. -/
theorem invalid_step_rejected_witness :
    executeStep allOkHandler initialSummary 7 =
      ⟨.returns (.err ("无效的步骤号: " ++ toString (7 : Int))), initialSummary, []⟩ :=
  invalid_step_rejected allOkHandler initialSummary 7 (by decide)

end Pubmed
